import Mathlib

/-!
Verification development for the identity-document scanner application.

The definitions below are shallow embeddings of the JavaScript sources:
  * src/lib/mrz-parser.js  — MRZ normalization and TD3 parsing
  * src/main.js            — scan orchestration (performScan, the scan loop,
                             the IPC handlers) and the field validators
  * src/lib/scanner-client.js / the reconnect handler in src/main.js

Strings are modelled as Lean Strings / lists of characters; the embeddings
are ASCII-faithful (the inputs the theorems touch use only ASCII).
-/

namespace ScannerApp

/-! ## Character and list helpers (JS string primitives) -/

/-- JS regex class [A-Z]. -/
def isUpperAZ (c : Char) : Bool := 'A' ≤ c && c ≤ 'Z'

/-- JS regex class \d. -/
def isDigit09 (c : Char) : Bool := '0' ≤ c && c ≤ '9'

/-- JS control characters \u0000-\u001F (this range contains \n and \r). -/
def isControl00to1F (c : Char) : Bool := c.toNat ≤ 31

/-- ASCII members of the JS whitespace class \s (used by trim() and replace(/\s/g)). -/
def isJsWs (c : Char) : Bool :=
  c == ' ' || c == '\t' || c == '\n' || c == '\r' || c.toNat == 11 || c.toNat == 12

/-- JS String.prototype.trim() on a character list. -/
def trimWs (l : List Char) : List Char :=
  ((l.dropWhile isJsWs).reverse.dropWhile isJsWs).reverse

/-- JS padEnd(n, c): right-pad to length n (never truncates). -/
def padEndTo (n : Nat) (c : Char) (l : List Char) : List Char :=
  l ++ List.replicate (n - l.length) c

/-- JS split('\n') on a character list. -/
def splitNl : List Char → List (List Char)
  | [] => [[]]
  | c :: cs =>
    if c == '\n' then [] :: splitNl cs
    else
      match splitNl cs with
      | [] => [[c]]
      | p :: ps => (c :: p) :: ps

/-- JS split('<<') on a character list (non-overlapping, left to right). -/
def splitLtLt : List Char → List (List Char)
  | [] => [[]]
  | '<' :: '<' :: rest => [] :: splitLtLt rest
  | c :: rest =>
    match splitLtLt rest with
    | [] => [[c]]
    | p :: ps => (c :: p) :: ps

/-- l.all isDigit09, as used to embed \d{k} regex pieces. -/
def allDigits (l : List Char) : Bool := l.all isDigit09

/-- Leading-digit run, for JS parseInt(s, 10). -/
def takeDigits : List Char → List Char
  | [] => []
  | c :: cs => if isDigit09 c then c :: takeDigits cs else []

def digitsToNat (l : List Char) : Nat :=
  l.foldl (fun a c => a * 10 + (c.toNat - '0'.toNat)) 0

/-- JS parseInt(s, 10) restricted to our inputs: none when the string does
not start with a digit (JS NaN), otherwise the value of the leading digit run. -/
def parseIntLeading (l : List Char) : Option Nat :=
  match takeDigits l with
  | [] => none
  | ds => some (digitsToNat ds)

/-! ## src/lib/mrz-parser.js -/

/-- Result of normalizeMrz: the two MRZ lines. -/
structure MrzLines where
  line1 : List Char
  line2 : List Char
deriving Repr, DecidableEq

/-- First index where the regex /[A-Z]{1,2}\d{5,}/ matches, i.e. one or two
letters followed by at least five digits (JS String.prototype.search). -/
def fiveDigitsHere (l : List Char) : Bool :=
  match l with
  | a :: b :: c :: d :: e :: _ =>
    isDigit09 a && isDigit09 b && isDigit09 c && isDigit09 d && isDigit09 e
  | _ => false

def sigMatchHere (l : List Char) : Bool :=
  match l with
  | c :: rest =>
    isUpperAZ c &&
      (fiveDigitsHere rest ||
        (match rest with
         | d :: rest2 => isUpperAZ d && fiveDigitsHere rest2
         | [] => false))
  | [] => false

def sigSearch : List Char → Option Nat
  | [] => none
  | c :: cs =>
    if sigMatchHere (c :: cs) then some 0
    else
      match sigSearch cs with
      | some n => some (n + 1)
      | none => none

/-- The cleaning pipeline of normalizeMrz before the newline split:
strip control characters (note: this removes every newline), strip \r,
trim, map spaces to filler, keep only [A-Z0-9<\n]. -/
def mrzCleaned (raw : String) : List Char :=
  let c1 := raw.data.filter (fun c => !(isControl00to1F c))
  let c2 := c1.filter (fun c => c ≠ '\r')
  let c3 := trimWs c2
  let c4 := c3.map (fun c => if c == ' ' then '<' else c)
  c4.filter (fun c => isUpperAZ c || isDigit09 c || c == '<' || c == '\n')

/-- normalizeMrz (src/lib/mrz-parser.js lines 11-66). -/
def normalizeMrz (raw : String) : Option MrzLines :=
  if raw = "" then none
  else
    let cleaned := mrzCleaned raw
    let parts := (splitNl cleaned).filter (fun s => s.length > 0)
    if parts.length ≥ 2 then
      some ⟨(padEndTo 44 '<' (parts.headD [])).take 44,
            (padEndTo 44 '<' ((parts.drop 1).headD [])).take 44⟩
    else
      let cc := cleaned.filter (fun c => c ≠ '\n')
      if cc.length ≥ 88 then
        some ⟨cc.take 44, (cc.drop 44).take 44⟩
      else if cc.length ≥ 44 then
        match sigSearch cc with
        | some n =>
          if n > 0 then
            some ⟨padEndTo 44 '<' (cc.take n), padEndTo 44 '<' (cc.drop n)⟩
          else
            some ⟨padEndTo 44 '<' (cc.take 44), padEndTo 44 '<' (cc.drop 44)⟩
        | none =>
          some ⟨padEndTo 44 '<' (cc.take 44), padEndTo 44 '<' (cc.drop 44)⟩
      else none

/-- formatMrzDate (src/lib/mrz-parser.js lines 190-201): YYMMDD to YYYY-MM-DD
with the two-digit-year pivot year > 50 ↦ 1900+year, else 2000+year. -/
def formatMrzDate (dateStr : String) : String :=
  if dateStr.data.length ≠ 6 then ""
  else
    let y2 := dateStr.data.take 2
    let month := String.mk ((dateStr.data.drop 2).take 2)
    let day := String.mk ((dateStr.data.drop 4).take 2)
    let yearStr :=
      match parseIntLeading y2 with
      | some y => toString (if y > 50 then 1900 + y else 2000 + y)
      | none => "NaN"
    yearStr ++ "-" ++ month ++ "-" ++ day

/-- Remove MRZ fillers, as replace(/</g, ''). -/
def stripFillers (l : List Char) : List Char := l.filter (fun c => c ≠ '<')

/-- replace(/</g, ' ') followed by trim(), used for the name fields. -/
def mrzNameField (l : List Char) : String :=
  String.mk (trimWs (l.map (fun c => if c == '<' then ' ' else c)))

/-- Parsed TD3 record (parseMrzFull's return object). -/
structure MrzInfo where
  documentType : String
  issuingCountry : String
  surname : String
  givenNames : String
  fullName : String
  passportNo : String
  nationality : String
  birthDate : String
  sex : String
  expiryDate : String
  personalNo : String
  rawLine1 : List Char
  rawLine2 : List Char
deriving Repr, DecidableEq

/-- parseMrzFull (src/lib/mrz-parser.js lines 132-183): fixed TD3 offsets. -/
def parseMrzFull (raw : String) : Option MrzInfo :=
  match normalizeMrz raw with
  | none => none
  | some lines =>
    let line1 := lines.line1
    let line2 := lines.line2
    let namePart := (line1.drop 5).take 39
    let nameSplit := splitLtLt namePart
    let surname := mrzNameField (nameSplit.headD [])
    let givenNames := mrzNameField ((nameSplit.drop 1).headD [])
    let sexC := (line2.drop 20).take 1
    some
      { documentType := String.mk (stripFillers (line1.take 2))
        issuingCountry := String.mk (stripFillers ((line1.drop 2).take 3))
        surname := surname
        givenNames := givenNames
        fullName := String.mk (trimWs (surname.data ++ ' ' :: givenNames.data))
        passportNo := String.mk (stripFillers (line2.take 9))
        nationality := String.mk (stripFillers ((line2.drop 10).take 3))
        birthDate := formatMrzDate (String.mk ((line2.drop 13).take 6))
        sex := if sexC = ['M'] then "Male"
               else if sexC = ['F'] then "Female" else "Unknown"
        expiryDate := formatMrzDate (String.mk ((line2.drop 21).take 6))
        personalNo := String.mk (stripFillers ((line2.drop 28).take 14))
        rawLine1 := line1
        rawLine2 := line2 }

/-! ## src/main.js — constants and field validators -/

/-- FAIL_BACKOFF_MS (src/main.js line 17): wait after a recognition failure. -/
def FAIL_BACKOFF_MS : Nat := 2500

/-- isValidPassportMRZ (src/main.js lines 223-229): after stripping all
whitespace the text must start with 'P' (or 'P<') and have length ≥ 60. -/
def isValidPassportMRZ (mrz : String) : Bool :=
  if mrz = "" then false
  else
    let cleaned := mrz.data.filter (fun c => !(isJsWs c))
    (decide (cleaned.take 1 = ['P']) ||
      decide (cleaned.take 2 = ['P', '<'])) && decide (cleaned.length ≥ 60)

/-- The hyphenated Korean RRN pattern ^\d{6}-\d{7}$. -/
def matchRRNHyphen (l : List Char) : Bool :=
  decide (l.length = 14) && allDigits (l.take 6) &&
    decide ((l.drop 6).take 1 = ['-']) && allDigits (l.drop 7)

/-- looksLikeKoreanRRN (src/main.js lines 238-242):
^\d{6}-\d{7}$ or ^\d{13}$ after trim; empty/absent value is rejected. -/
def looksLikeKoreanRRN (idNo : String) : Bool :=
  if idNo = "" then false
  else
    let s := trimWs idNo.data
    matchRRNHyphen s || (decide (s.length = 13) && allDigits s)

/-- looksLikeDriverLicenseNo (src/main.js lines 244-249): ^\d{2}-\d{2}-\d{6}-\d{2}$. -/
def looksLikeDriverLicenseNo (licenseNo : String) : Bool :=
  if licenseNo = "" then false
  else
    let s := trimWs licenseNo.data
    decide (s.length = 15) && allDigits (s.take 2) &&
      decide ((s.drop 2).take 1 = ['-']) && allDigits ((s.drop 3).take 2) &&
      decide ((s.drop 5).take 1 = ['-']) && allDigits ((s.drop 6).take 6) &&
      decide ((s.drop 12).take 1 = ['-']) && allDigits (s.drop 13)

/-- looksLikeAlienRegNo (src/main.js lines 251-260):
^\d{6}-[5-8]\d{6}$, or ^\d{13}$ with the 7th digit in {5,6,7,8}. -/
def looksLikeAlienRegNo (alienNo : String) : Bool :=
  if alienNo = "" then false
  else
    let s := trimWs alienNo.data
    let c7 := (s.drop 6).headD ' '
    (decide (s.length = 14) && allDigits (s.take 6) &&
      decide ((s.drop 6).take 1 = ['-']) &&
      (let c8 := (s.drop 7).headD ' '; '5' ≤ c8 && c8 ≤ '8') &&
      allDigits (s.drop 7))
    ||
    (decide (s.length = 13) && allDigits s &&
      (c7 == '5' || c7 == '6' || c7 == '7' || c7 == '8'))

/-! ## src/main.js — performScan, modelled over a device environment

performScan (src/main.js lines 262-493) is driven by the device boundary:
the scanAuto result, the staged files appearing, getDocumentType, and the
per-iteration readMRZ / OCR results.  The environment below records those
responses; the model returns the observable effects of one attempt. -/

/-- scanAuto's reported type ('passport' | 'card' | 'none'). -/
inductive ScanType
  | passport
  | card
  | noDoc
deriving Repr, DecidableEq

/-- readDriverLicense result fields (src/lib/scanner.js readDriverLicense). -/
structure OcrLicense where
  idNo : String
  name : String
  licenseNo : String
  issuedDate : String
  address : String
  licenseType : String
  validPeriod : String
deriving Repr, DecidableEq

/-- readIDCard result fields (src/lib/scanner.js readIDCard). -/
structure OcrIdCard where
  idNo : String
  name : String
  address : String
  issuedDate : String
deriving Repr, DecidableEq

/-- readAlienCard result fields (src/lib/scanner.js readAlienCard). -/
structure OcrAlien where
  alienNo : String
  name : String
  area : String
  visaType : String
deriving Repr, DecidableEq

/-- JS idCard?.idNo with null propagating to a rejected value. -/
def idCardIdNo : Option OcrIdCard → String
  | some c => c.idNo
  | none => ""

def licenseLicenseNo : Option OcrLicense → String
  | some l => l.licenseNo
  | none => ""

def alienAlienNo : Option OcrAlien → String
  | some a => a.alienNo
  | none => ""

/-- Document kind adopted by the card OCR loop. -/
inductive CardKind
  | idCard
  | driverLicense
  | alienCard
deriving Repr, DecidableEq

/-- One iteration of the card OCR acceptance test (src/main.js lines 346-365):
RRN pattern first, then the license-number pattern, then the alien-number
pattern; each consults only its own number field. -/
def classifyCard (license : Option OcrLicense) (idCard : Option OcrIdCard)
    (alien : Option OcrAlien) : Option CardKind :=
  if looksLikeKoreanRRN (idCardIdNo idCard) then some .idCard
  else if looksLikeDriverLicenseNo (licenseLicenseNo license) then some .driverLicense
  else if looksLikeAlienRegNo (alienAlienNo alien) then some .alienCard
  else none

/-- The device-boundary call sites reachable from src/main.js. -/
inductive CallSite
  | openDev
  | closeDev
  | scanAuto
  | getDocumentType
  | readMRZ
  | readDriverLicense
  | readIDCard
  | readAlienCard
  | resetState
  | destroyWorker
  | initWorker
deriving Repr, DecidableEq

/-- Device/environment behaviour for one attempt. -/
structure ScanEnv where
  scanSuccess : Bool
  scanType : ScanType
  bmpExists : Bool
  irExists : Bool
  docTypeName : String
  mrzReads : Nat → String
  licenseReads : Nat → Option OcrLicense
  idCardReads : Nat → Option OcrIdCard
  alienReads : Nat → Option OcrAlien

/-- The passport MRZ retry loop (src/main.js lines 318-332): up to 10
readMRZ calls, stopping at the first structurally valid text. -/
def mrzLoop (reads : Nat → String) (i fuel : Nat) : List CallSite × Option String :=
  match fuel with
  | 0 => ([], none)
  | fuel + 1 =>
    let candidate := reads i
    if isValidPassportMRZ candidate then ([.readMRZ], some candidate)
    else
      let rest := mrzLoop reads (i + 1) fuel
      (.readMRZ :: rest.1, rest.2)

/-- The card OCR retry loop (src/main.js lines 338-368): up to 10 rounds of
readDriverLicense, readIDCard, readAlienCard, stopping at the first round
whose acceptance test passes. -/
def cardLoop (env : ScanEnv) (i fuel : Nat) : List CallSite × Option CardKind :=
  match fuel with
  | 0 => ([], none)
  | fuel + 1 =>
    let here : List CallSite := [.readDriverLicense, .readIDCard, .readAlienCard]
    match classifyCard (env.licenseReads i) (env.idCardReads i) (env.alienReads i) with
    | some kind => (here, some kind)
    | none =>
      let rest := cardLoop env (i + 1) fuel
      (here ++ rest.1, rest.2)

/-- Observable effects of one performScan attempt. -/
structure ScanOutcome where
  calls : List CallSite
  backoffSet : Bool
  bmpDeleted : Bool
  irDeleted : Bool
  imagesRenamed : Nat
  txtWritten : Bool
  jsonWritten : Bool
  notified : Bool
  recognized : Bool
  mrzText : String
  cardKind : Option CardKind
deriving Repr, DecidableEq

/-- The MRZ phase of performScan: the retry loop runs only for a passport
scan (src/main.js line 317). -/
def mrzPartOf (env : ScanEnv) : List CallSite × Option String :=
  if env.scanType = .passport then mrzLoop env.mrzReads 0 10 else ([], none)

/-- documentData produced by the passport branch (parseMrzFull on the
accepted MRZ text, src/main.js line 326). -/
def passportDataOf (env : ScanEnv) : Option MrzInfo :=
  match (mrzPartOf env).2 with
  | some m => parseMrzFull m
  | none => none

/-- The card OCR phase, guarded exactly as src/main.js line 337:
(!documentData || !documentData.documentType) && type === 'card' &&
!isPassportConfirmed. -/
def cardPartOf (env : ScanEnv) : List CallSite × Option CardKind :=
  if !(passportDataOf env).isSome && env.scanType = .card
      && !(mrzPartOf env).2.isSome then
    cardLoop env 0 10
  else ([], none)

/-- Final recognition decision (src/main.js line 375):
(mrzText && mrzText.length > 10) || (documentData && documentData.documentType). -/
def recognizedOf (env : ScanEnv) : Bool :=
  let mrzText := (mrzPartOf env).2.getD ""
  (!(mrzText = "") && decide (mrzText.data.length > 10)) ||
    ((passportDataOf env).isSome || (cardPartOf env).2.isSome)

/-- performScan (src/main.js lines 262-493), as a function of the device
environment.  The isScanning guard and flag live in the orchestration
machine below; this function models the body of one attempt. -/
def performScan (env : ScanEnv) : ScanOutcome :=
  if !env.scanSuccess then
    { calls := [.scanAuto], backoffSet := false, bmpDeleted := false
      irDeleted := false, imagesRenamed := 0, txtWritten := false
      jsonWritten := false, notified := false, recognized := false
      mrzText := "", cardKind := none }
  else
    let mrzText := ((mrzPartOf env).2).getD ""
    let docDataSet := (passportDataOf env).isSome || (cardPartOf env).2.isSome
    let calls :=
      .scanAuto :: .getDocumentType :: ((mrzPartOf env).1 ++ (cardPartOf env).1)
    if !(recognizedOf env) then
      { calls := calls, backoffSet := true, bmpDeleted := env.bmpExists
        irDeleted := env.irExists, imagesRenamed := 0, txtWritten := false
        jsonWritten := false, notified := false, recognized := false
        mrzText := mrzText, cardKind := (cardPartOf env).2 }
    else
      { calls := calls, backoffSet := false, bmpDeleted := false
        irDeleted := false
        imagesRenamed :=
          (if env.bmpExists then 1 else 0) + (if env.irExists then 1 else 0)
        txtWritten := true, jsonWritten := docDataSet, notified := true
        recognized := true, mrzText := mrzText, cardKind := (cardPartOf env).2 }

/-! ## src/main.js — per-call deadlines (withTimeout wrapping) -/

/-- The explicit deadline each call site is wrapped with, read off the
withTimeout uses in src/main.js: scanner.open 3000 (line 109),
scanner.close 2000 (line 122), scanner.destroy 1500 (line 547),
scanner.init 3000 (line 553).  scanAuto, getDocumentType, readMRZ and the
three OCR getters are awaited bare inside performScan. -/
def deadlineMs : CallSite → Option Nat
  | .openDev => some 3000
  | .closeDev => some 2000
  | .destroyWorker => some 1500
  | .initWorker => some 3000
  | _ => none

/-! ## src/main.js — orchestration state machine

JavaScript's event loop runs each synchronous segment atomically.  The
mutable orchestration state of src/main.js (scannerOpened, isScanning,
lastFailedAt, scanLoopTimer) is modelled as a record, and the atomic
segments — a timer tick of startScanLoop (lines 167-176), the synchronous
head of performScan (lines 263-264), the manual-scan handler (lines
525-532), the completion of an attempt (the tail of performScan and its
catch, lines 377-492), and the start/stop loop handlers (lines 564-575) —
as a step function emitting the actions each segment performs. -/

/-- Mutable orchestration state (src/main.js lines 20-26). -/
structure OState where
  scannerPresent : Bool
  scannerOpened : Bool
  isScanning : Bool
  lastFailedAt : Nat
  loopRunning : Bool
deriving Repr, DecidableEq

/-- How an in-flight attempt ends (tail of performScan / its catch). -/
inductive AttemptOutcome
  | recognizedDone
  | unrecognized
  | noDocument
  | errorTimeout
  | errorOther
deriving Repr, DecidableEq

/-- Atomic events hitting the orchestration state. -/
inductive Ev
  | tick (now : Nat)
  | manualScan
  | attemptEnd (o : AttemptOutcome) (now : Nat)
  | startLoopReq
  | stopLoopReq
deriving Repr, DecidableEq

/-- Actions an event can perform.  advisoryStatus and autoReconnect are in
the vocabulary so their absence can be stated. -/
inductive Act
  | startAttempt
  | endAttempt
  | advisoryStatus
  | autoReconnect
deriving Repr, DecidableEq

/-- One atomic segment (translated from src/main.js as listed above). -/
def step (s : OState) (e : Ev) : OState × List Act :=
  match e with
  | .tick now =>
    if !s.loopRunning then (s, [])
    else if !s.scannerPresent || !s.scannerOpened || s.isScanning then (s, [])
    else if now - s.lastFailedAt < FAIL_BACKOFF_MS then (s, [])
    else ({ s with isScanning := true }, [.startAttempt])
  | .manualScan =>
    if !s.scannerPresent || !s.scannerOpened then (s, [])
    else if s.isScanning then (s, [])
    else ({ s with isScanning := true }, [.startAttempt])
  | .attemptEnd o now =>
    if s.isScanning then
      match o with
      | .unrecognized =>
        ({ s with isScanning := false, lastFailedAt := now }, [.endAttempt])
      | _ => ({ s with isScanning := false }, [.endAttempt])
    else (s, [])
  | .startLoopReq =>
    if !s.scannerPresent || !s.scannerOpened then (s, [])
    else ({ s with loopRunning := true }, [])
  | .stopLoopReq => ({ s with loopRunning := false }, [])

/-- Run a sequence of events, accumulating actions. -/
def runEvents (s : OState) : List Ev → OState × List Act
  | [] => (s, [])
  | e :: es =>
    let p := step s e
    let q := runEvents p.1 es
    (q.1, p.2 ++ q.2)

/-- Number of occurrences of an action in a trace. -/
def countAct (a : Act) (l : List Act) : Nat :=
  (l.filter (fun x => x == a)).length

/-! ## src/main.js — reconnect-scanner handler (lines 534-562) -/

/-- Steps of the reconnect recovery sequence.  stopLoop/resumeLoop are in
the vocabulary so their absence can be stated. -/
inductive RAct
  | closeDev
  | pause250
  | openDev
  | destroyWorker
  | createWorker
  | initWorker
  | stopLoop
  | resumeLoop
deriving Repr, DecidableEq

/-- Environment outcomes the reconnect handler branches on. -/
structure ReconnEnv where
  quickOpenOk : Bool
  initOk : Bool
  reopenOk : Bool
deriving Repr, DecidableEq

/-- reconnect-scanner handler (src/main.js lines 534-562): close, pause
250ms, quick reopen; only if that fails, destroy and recreate the worker
client, re-init, reopen.  There is no rate limiting and the scan loop is
not touched. -/
def reconnectHandler (env : ReconnEnv) : List RAct × Bool :=
  let pre : List RAct := [.closeDev, .pause250, .openDev]
  if env.quickOpenOk then (pre, true)
  else
    let pre2 := pre ++ [.destroyWorker, .createWorker, .initWorker]
    if !env.initOk then (pre2, false)
    else (pre2 ++ [.openDev], env.reopenOk)

/-- Number of occurrences of a reconnect step in a trace. -/
def countRAct (a : RAct) (l : List RAct) : Nat :=
  (l.filter (fun x => x == a)).length

/-! ## Concrete inputs used by the claim theorems -/

/-- ICAO Doc 9303 TD3 specimen, line 1. -/
def specimenLine1 : String := "P<UTOERIKSSON<<ANNA<MARIA<<<<<<<<<<<<<<<<<<<"

/-- ICAO Doc 9303 TD3 specimen, line 2. -/
def specimenLine2 : String := "L898902C<3UTO6908061F9406236ZE184226B<<<<<10"

/-- Raw MRZ text of the specimen, as the device would deliver it. -/
def specimenRaw : String := specimenLine1 ++ "\n" ++ specimenLine2

/-- A two-segment raw MRZ capture: a 10-character first segment, a newline,
and a 50-character second segment starting with the line-2 signature. -/
def twoSegmentRaw : String :=
  "PPPPPPPPPP\nAB12345" ++ "0000000000000000000000000000000000000000000"

/-- A card scan whose document type stays UNKNOWN and whose OCR reads all
come back empty. -/
def unknownCardEnv : ScanEnv :=
  { scanSuccess := true, scanType := .card, bmpExists := true, irExists := false
    docTypeName := "UNKNOWN", mrzReads := fun _ => ""
    licenseReads := fun _ => none, idCardReads := fun _ => none
    alienReads := fun _ => none }

/-- A passport scan whose MRZ reads all come back empty. -/
def emptyPassportEnv : ScanEnv :=
  { scanSuccess := true, scanType := .passport, bmpExists := true, irExists := true
    docTypeName := "PASSPORT", mrzReads := fun _ => ""
    licenseReads := fun _ => none, idCardReads := fun _ => none
    alienReads := fun _ => none }

/-- A passport scan delivering the specimen MRZ on the first read. -/
def specimenPassportEnv : ScanEnv :=
  { scanSuccess := true, scanType := .passport, bmpExists := true, irExists := false
    docTypeName := "PASSPORT", mrzReads := fun _ => specimenRaw
    licenseReads := fun _ => none, idCardReads := fun _ => none
    alienReads := fun _ => none }

/-- Orchestration state with an attempt in flight. -/
def busyState : OState :=
  { scannerPresent := true, scannerOpened := true, isScanning := true
    lastFailedAt := 0, loopRunning := true }

/-- Orchestration state: loop running, idle, out of backoff. -/
def idleState : OState :=
  { scannerPresent := true, scannerOpened := true, isScanning := false
    lastFailedAt := 0, loopRunning := true }

/-- Three consecutive timeout-failing attempts with no intervening success. -/
def threeTimeoutEvents : List Ev :=
  [.tick 10000, .attemptEnd .errorTimeout 10500,
   .tick 20000, .attemptEnd .errorTimeout 20500,
   .tick 30000, .attemptEnd .errorTimeout 30500]

/-- Reconnect environment where the quick reopen succeeds. -/
def quickReconnEnv : ReconnEnv := ⟨true, true, true⟩

/-- An ID-card OCR result with a 7-digit national id and a 2-character name. -/
def sevenDigitIdCard : OcrIdCard :=
  { idNo := "1234567", name := "AB", address := "", issuedDate := "" }

/-- Same national id as sevenDigitIdCard but different remaining fields. -/
def sevenDigitIdCardAlt : OcrIdCard :=
  { idNo := "1234567", name := "CD", address := "somewhere", issuedDate := "2020" }

/-! ## Helper lemmas -/

theorem mem_of_mem_trimWs {a : Char} {l : List Char} (h : a ∈ trimWs l) :
    a ∈ l := by
  unfold trimWs at h
  rw [List.mem_reverse] at h
  have h1 := (List.dropWhile_sublist isJsWs).subset h
  rw [List.mem_reverse] at h1
  exact (List.dropWhile_sublist isJsWs).subset h1

theorem nl_not_mem_mrzCleaned (raw : String) : '\n' ∉ mrzCleaned raw := by
  intro hmem
  unfold mrzCleaned at hmem
  simp only [List.mem_filter] at hmem
  obtain ⟨h4, _⟩ := hmem
  obtain ⟨c, hc3, hmap⟩ := List.mem_map.mp h4
  have hcnl : c = '\n' := by
    by_cases hc : c = ' '
    · rw [hc] at hmap; simp at hmap
    · have hbe : (c == ' ') = false := by simp [hc]
      rw [hbe] at hmap; simpa using hmap
  subst hcnl
  have hc2 := mem_of_mem_trimWs hc3
  rw [List.mem_filter] at hc2
  have hc1 := hc2.1
  rw [List.mem_filter] at hc1
  have : isControl00to1F '\n' = true := by decide
  simp [this] at hc1

theorem splitNl_of_no_nl {l : List Char} (h : '\n' ∉ l) : splitNl l = [l] := by
  induction l with
  | nil => rfl
  | cons c cs ih =>
    have hc : (c == '\n') = false := by
      simp only [beq_eq_false_iff_ne, ne_eq]
      intro he; exact h (he ▸ List.mem_cons_self c cs)
    have hcs : '\n' ∉ cs := fun hm => h (List.mem_cons_of_mem c hm)
    simp only [splitNl, hc, if_false, Bool.false_eq_true, ih hcs]

theorem padEndTo_length (n : Nat) (c : Char) (l : List Char) :
    (padEndTo n c l).length = max l.length n := by
  simp only [padEndTo, List.length_append, List.length_replicate]
  omega

/-- Because the control-character strip removes every newline, normalizeMrz
always reduces to its single-segment logic. -/
theorem normalizeMrz_single_segment (raw : String) :
    normalizeMrz raw =
      (if (mrzCleaned raw).length ≥ 88 then
        some ⟨(mrzCleaned raw).take 44, ((mrzCleaned raw).drop 44).take 44⟩
      else if (mrzCleaned raw).length ≥ 44 then
        match sigSearch (mrzCleaned raw) with
        | some n =>
          if n > 0 then
            some ⟨padEndTo 44 '<' ((mrzCleaned raw).take n),
                  padEndTo 44 '<' ((mrzCleaned raw).drop n)⟩
          else
            some ⟨padEndTo 44 '<' ((mrzCleaned raw).take 44),
                  padEndTo 44 '<' ((mrzCleaned raw).drop 44)⟩
        | none =>
          some ⟨padEndTo 44 '<' ((mrzCleaned raw).take 44),
                padEndTo 44 '<' ((mrzCleaned raw).drop 44)⟩
      else none) := by
  by_cases hraw : raw = ""
  · subst hraw; rfl
  · have hnl := nl_not_mem_mrzCleaned raw
    have hsplit : splitNl (mrzCleaned raw) = [mrzCleaned raw] := splitNl_of_no_nl hnl
    have hfilter : (mrzCleaned raw).filter (fun c => c ≠ '\n') = mrzCleaned raw := by
      rw [List.filter_eq_self]
      intro a ha
      simp only [ne_eq, decide_eq_true_eq]
      intro he; exact hnl (he ▸ ha)
    have hparts :
        ((splitNl (mrzCleaned raw)).filter (fun s => s.length > 0)).length < 2 := by
      rw [hsplit]
      by_cases h0 : (mrzCleaned raw).length > 0 <;> simp [List.filter, h0]
    unfold normalizeMrz
    rw [if_neg hraw, if_neg (by omega), hfilter]

theorem isValidPassportMRZ_length {s : String} (h : isValidPassportMRZ s = true) :
    10 < s.data.length := by
  unfold isValidPassportMRZ at h
  split at h
  · exact absurd h (by simp)
  · simp only [Bool.and_eq_true, decide_eq_true_eq] at h
    have h60 := h.2
    have hle := List.length_filter_le (fun c => !(isJsWs c)) s.data
    omega

theorem isValidPassportMRZ_ne_empty {s : String} (h : isValidPassportMRZ s = true) :
    ¬(s = "") := by
  intro he
  subst he
  simp [isValidPassportMRZ] at h

theorem mrzLoop_mem_calls {reads : Nat → String} {i fuel : Nat} {c : CallSite}
    (h : c ∈ (mrzLoop reads i fuel).1) : c = CallSite.readMRZ := by
  induction fuel generalizing i with
  | zero => simp [mrzLoop] at h
  | succ n ih =>
    rw [mrzLoop] at h
    split at h
    · simpa using h
    · simp only [List.mem_cons] at h
      rcases h with h | h
      · exact h
      · exact ih h

theorem mrzLoop_some_valid {reads : Nat → String} {i fuel : Nat} {m : String}
    (h : (mrzLoop reads i fuel).2 = some m) : isValidPassportMRZ m = true := by
  induction fuel generalizing i with
  | zero => simp [mrzLoop] at h
  | succ n ih =>
    rw [mrzLoop] at h
    split at h
    · rename_i hv
      simp only [Option.some.injEq] at h
      exact h ▸ hv
    · exact ih h

theorem mrzLoop_isSome_iff (reads : Nat → String) (i fuel : Nat) :
    (mrzLoop reads i fuel).2.isSome = true ↔
      ∃ j, j < fuel ∧ isValidPassportMRZ (reads (i + j)) = true := by
  induction fuel generalizing i with
  | zero => simp [mrzLoop]
  | succ n ih =>
    rw [mrzLoop]
    split
    · rename_i hv
      simp only [Option.isSome_some, true_iff]
      exact ⟨0, Nat.succ_pos n, by simpa using hv⟩
    · rename_i hv
      rw [ih (i + 1)]
      constructor
      · rintro ⟨j, hj, hval⟩
        exact ⟨j + 1, by omega, by rwa [show i + (j + 1) = i + 1 + j by omega]⟩
      · rintro ⟨j, hj, hval⟩
        match j, hj with
        | 0, _ => exact absurd (by simpa using hval) (by simpa using hv)
        | j + 1, hj =>
          exact ⟨j, by omega, by rwa [show i + 1 + j = i + (j + 1) by omega]⟩

theorem cardLoop_mem_calls {env : ScanEnv} {i fuel : Nat} {c : CallSite}
    (h : c ∈ (cardLoop env i fuel).1) :
    c = CallSite.readDriverLicense ∨ c = CallSite.readIDCard ∨
      c = CallSite.readAlienCard := by
  induction fuel generalizing i with
  | zero => simp [cardLoop] at h
  | succ n ih =>
    rw [cardLoop] at h
    split at h
    · simpa using h
    · rw [List.mem_append] at h
      rcases h with h | h
      · simpa using h
      · exact ih h

theorem cardLoop_readIDCard_mem (env : ScanEnv) (i fuel : Nat) (h : 0 < fuel) :
    CallSite.readIDCard ∈ (cardLoop env i fuel).1 := by
  match fuel, h with
  | n + 1, _ =>
    rw [cardLoop]
    split <;> simp

theorem cardLoop_isSome_iff (env : ScanEnv) (i fuel : Nat) :
    (cardLoop env i fuel).2.isSome = true ↔
      ∃ j, j < fuel ∧
        classifyCard (env.licenseReads (i + j)) (env.idCardReads (i + j))
          (env.alienReads (i + j)) ≠ none := by
  induction fuel generalizing i with
  | zero => simp [cardLoop]
  | succ n ih =>
    rw [cardLoop]
    split
    · rename_i k hk
      simp only [Option.isSome_some, true_iff]
      exact ⟨0, Nat.succ_pos n, by simp [hk]⟩
    · rename_i hk
      rw [ih (i + 1)]
      constructor
      · rintro ⟨j, hj, hval⟩
        exact ⟨j + 1, by omega, by rwa [show i + (j + 1) = i + 1 + j by omega]⟩
      · rintro ⟨j, hj, hval⟩
        match j, hj with
        | 0, _ =>
          exact absurd (by simpa using hval) (by simp [hk])
        | j + 1, hj =>
          exact ⟨j, by omega, by rwa [show i + 1 + j = i + (j + 1) by omega]⟩

theorem performScan_recognized {env : ScanEnv} (h : env.scanSuccess = true) :
    (performScan env).recognized = recognizedOf env := by
  unfold performScan
  rw [h]
  by_cases hr : recognizedOf env = true <;> simp [hr]

theorem performScan_calls {env : ScanEnv} (h : env.scanSuccess = true) :
    (performScan env).calls =
      CallSite.scanAuto :: CallSite.getDocumentType ::
        ((mrzPartOf env).1 ++ (cardPartOf env).1) := by
  unfold performScan
  rw [h]
  by_cases hr : recognizedOf env = true <;> simp [hr]

theorem performScan_unrecognized {env : ScanEnv} (h : env.scanSuccess = true)
    (hr : recognizedOf env = false) :
    (performScan env).backoffSet = true ∧
    (performScan env).bmpDeleted = env.bmpExists ∧
    (performScan env).irDeleted = env.irExists ∧
    (performScan env).imagesRenamed = 0 ∧
    (performScan env).txtWritten = false ∧
    (performScan env).jsonWritten = false ∧
    (performScan env).notified = false := by
  unfold performScan
  rw [h]
  simp [hr]

theorem call_mem_performScan {env : ScanEnv} {c : CallSite}
    (h : c ∈ (performScan env).calls) :
    c = CallSite.scanAuto ∨ c = CallSite.getDocumentType ∨
      c = CallSite.readMRZ ∨ c = CallSite.readDriverLicense ∨
      c = CallSite.readIDCard ∨ c = CallSite.readAlienCard := by
  by_cases hs : env.scanSuccess = true
  · rw [performScan_calls hs] at h
    simp only [List.mem_cons, List.mem_append] at h
    rcases h with h | h | h | h
    · exact Or.inl h
    · exact Or.inr (Or.inl h)
    · have hm : c ∈ (mrzPartOf env).1 := h
      unfold mrzPartOf at hm
      split at hm
      · exact Or.inr (Or.inr (Or.inl (mrzLoop_mem_calls hm)))
      · simp at hm
    · have hm : c ∈ (cardPartOf env).1 := h
      unfold cardPartOf at hm
      split at hm
      · rcases cardLoop_mem_calls hm with h1 | h1 | h1
        · exact Or.inr (Or.inr (Or.inr (Or.inl h1)))
        · exact Or.inr (Or.inr (Or.inr (Or.inr (Or.inl h1))))
        · exact Or.inr (Or.inr (Or.inr (Or.inr (Or.inr h1))))
      · simp at hm
  · have hs' : env.scanSuccess = false := by
      cases hse : env.scanSuccess
      · rfl
      · exact absurd hse hs
    unfold performScan at h
    rw [hs'] at h
    simp only [Bool.not_false, if_true, List.mem_singleton] at h
    exact Or.inl h

theorem mrzPartOf_eq_loop {env : ScanEnv} (h : env.scanType = .passport) :
    mrzPartOf env = mrzLoop env.mrzReads 0 10 := by
  unfold mrzPartOf; simp [h]

theorem mrzPartOf_not_passport {env : ScanEnv} (h : env.scanType ≠ .passport) :
    mrzPartOf env = ([], none) := by
  unfold mrzPartOf; simp [h]

theorem passportDataOf_of_none {env : ScanEnv} (h : (mrzPartOf env).2 = none) :
    passportDataOf env = none := by
  unfold passportDataOf; rw [h]

theorem cardPartOf_eq_loop {env : ScanEnv} (h : env.scanType = .card) :
    cardPartOf env = cardLoop env 0 10 := by
  have hm : mrzPartOf env = ([], none) :=
    mrzPartOf_not_passport (by rw [h]; intro hc; cases hc)
  have hp : passportDataOf env = none := passportDataOf_of_none (by rw [hm])
  unfold cardPartOf
  rw [hm, hp, h]
  simp

theorem cardPartOf_not_card {env : ScanEnv} (h : env.scanType ≠ .card) :
    cardPartOf env = ([], none) := by
  unfold cardPartOf; simp [h]

theorem mrzLoop_isSome_iff0 (reads : Nat → String) (fuel : Nat) :
    (mrzLoop reads 0 fuel).2.isSome = true ↔
      ∃ j, j < fuel ∧ isValidPassportMRZ (reads j) = true := by
  rw [mrzLoop_isSome_iff]
  simp only [Nat.zero_add]

theorem cardLoop_isSome_iff0 (env : ScanEnv) (fuel : Nat) :
    (cardLoop env 0 fuel).2.isSome = true ↔
      ∃ j, j < fuel ∧
        classifyCard (env.licenseReads j) (env.idCardReads j)
          (env.alienReads j) ≠ none := by
  rw [cardLoop_isSome_iff]
  simp only [Nat.zero_add]

theorem recognizedOf_passport {env : ScanEnv} (hty : env.scanType = .passport) :
    recognizedOf env = true ↔
      ∃ i, i < 10 ∧ isValidPassportMRZ (env.mrzReads i) = true := by
  have hm := mrzPartOf_eq_loop hty
  have hcp : cardPartOf env = ([], none) :=
    cardPartOf_not_card (by rw [hty]; intro hc; cases hc)
  unfold recognizedOf
  rw [hm, hcp]
  simp only [Option.isSome_none, Bool.or_false]
  constructor
  · intro hrec
    rw [← mrzLoop_isSome_iff0 env.mrzReads 10]
    rcases Bool.or_eq_true_iff.mp hrec with h1 | h2
    · cases hml : (mrzLoop env.mrzReads 0 10).2 with
      | none => rw [hml] at h1; simp at h1
      | some m => simp [hml]
    · unfold passportDataOf at h2
      rw [hm] at h2
      cases hml : (mrzLoop env.mrzReads 0 10).2 with
      | none => rw [hml] at h2; simp at h2
      | some m => simp [hml]
  · intro hex
    rw [← mrzLoop_isSome_iff0 env.mrzReads 10] at hex
    obtain ⟨m, hml⟩ := Option.isSome_iff_exists.mp hex
    have hv := mrzLoop_some_valid hml
    have hlen := isValidPassportMRZ_length hv
    have hne := isValidPassportMRZ_ne_empty hv
    rw [hml]
    simp only [Option.getD_some, Bool.or_eq_true, Bool.and_eq_true,
      Bool.not_eq_true', decide_eq_true_eq, decide_eq_false_iff_not]
    exact Or.inl ⟨by simpa using hne, hlen⟩

theorem recognizedOf_card {env : ScanEnv} (hty : env.scanType = .card) :
    recognizedOf env = true ↔
      ∃ i, i < 10 ∧
        classifyCard (env.licenseReads i) (env.idCardReads i)
          (env.alienReads i) ≠ none := by
  have hm : mrzPartOf env = ([], none) :=
    mrzPartOf_not_passport (by rw [hty]; intro hc; cases hc)
  have hp : passportDataOf env = none := passportDataOf_of_none (by rw [hm])
  have hcp := cardPartOf_eq_loop hty
  have hred : recognizedOf env = (cardLoop env 0 10).2.isSome := by
    unfold recognizedOf
    rw [hm, hp, hcp]
    rfl
  rw [hred, cardLoop_isSome_iff0]

theorem recognizedOf_noDoc {env : ScanEnv} (hty : env.scanType = .noDoc) :
    recognizedOf env = false := by
  have hm : mrzPartOf env = ([], none) :=
    mrzPartOf_not_passport (by rw [hty]; intro hc; cases hc)
  have hp : passportDataOf env = none := passportDataOf_of_none (by rw [hm])
  have hcp : cardPartOf env = ([], none) :=
    cardPartOf_not_card (by rw [hty]; intro hc; cases hc)
  unfold recognizedOf
  rw [hm, hp, hcp]
  simp

theorem countAct_append (a : Act) (l1 l2 : List Act) :
    countAct a (l1 ++ l2) = countAct a l1 + countAct a l2 := by
  simp [countAct, List.filter_append]

/-- Every step keeps the start/end action balance in lock-step with the
busy flag: starts + (was busy) = ends + (is busy). -/
theorem step_flight_balance (s : OState) (e : Ev) :
    countAct .startAttempt (step s e).2 + s.isScanning.toNat =
      countAct .endAttempt (step s e).2 + (step s e).1.isScanning.toNat := by
  cases e with
  | tick now =>
    simp only [step]
    split
    · rfl
    · split
      · rfl
      · split
        · rfl
        · rename_i h2 _
          have hsc : s.isScanning = false := by
            cases hb : s.isScanning
            · rfl
            · exact absurd (by simp [hb]) h2
          rw [hsc]
          rfl
  | manualScan =>
    simp only [step]
    split
    · rfl
    · split
      · rfl
      · rename_i h2
        have hsc : s.isScanning = false := by
          cases hb : s.isScanning
          · rfl
          · exact absurd hb h2
        rw [hsc]
        rfl
  | attemptEnd o now =>
    simp only [step]
    split
    · rename_i h
      rw [h]
      split <;> rfl
    · rfl
  | startLoopReq =>
    simp only [step]
    split <;> rfl
  | stopLoopReq =>
    simp only [step]
    rfl

theorem runEvents_flight_balance (s : OState) (evs : List Ev) :
    countAct .startAttempt (runEvents s evs).2 + s.isScanning.toNat =
      countAct .endAttempt (runEvents s evs).2 +
        (runEvents s evs).1.isScanning.toNat := by
  induction evs generalizing s with
  | nil => simp [runEvents, countAct]
  | cons e es ih =>
    simp only [runEvents]
    have h1 := step_flight_balance s e
    have h2 := ih (step s e).1
    rw [countAct_append, countAct_append]
    omega

/-- The only actions a step ever emits are attempt starts and ends. -/
theorem step_acts {s : OState} {e : Ev} {a : Act} (h : a ∈ (step s e).2) :
    a = .startAttempt ∨ a = .endAttempt := by
  cases e with
  | tick now =>
    simp only [step] at h
    split at h
    · simp at h
    · split at h
      · simp at h
      · split at h
        · simp at h
        · simp at h; exact Or.inl h
  | manualScan =>
    simp only [step] at h
    split at h
    · simp at h
    · split at h
      · simp at h
      · simp at h; exact Or.inl h
  | attemptEnd o now =>
    simp only [step] at h
    split at h
    · split at h <;> (simp at h; exact Or.inr h)
    · simp at h
  | startLoopReq =>
    simp only [step] at h
    split at h <;> simp at h
  | stopLoopReq =>
    simp only [step] at h
    simp at h

/-- The loop stops only through an explicit stop request. -/
theorem step_loop_stops_only_on_request {s : OState} {e : Ev}
    (h : (step s e).1.loopRunning = false) :
    s.loopRunning = false ∨ e = .stopLoopReq := by
  cases e with
  | tick now =>
    left
    simp only [step] at h
    split at h
    · exact h
    · split at h
      · exact h
      · split at h
        · exact h
        · exact h
  | manualScan =>
    left
    simp only [step] at h
    split at h
    · exact h
    · split at h
      · exact h
      · exact h
  | attemptEnd o now =>
    left
    simp only [step] at h
    split at h
    · split at h <;> exact h
    · exact h
  | startLoopReq =>
    left
    simp only [step] at h
    split at h
    · exact h
    · simp at h
  | stopLoopReq => exact Or.inr rfl

theorem trimWs_length_le (l : List Char) : (trimWs l).length ≤ l.length := by
  unfold trimWs
  simp only [List.length_reverse]
  calc ((l.dropWhile isJsWs).reverse.dropWhile isJsWs).length
      ≤ (l.dropWhile isJsWs).reverse.length :=
        (List.dropWhile_sublist isJsWs).length_le
    _ = (l.dropWhile isJsWs).length := List.length_reverse _
    _ ≤ l.length := (List.dropWhile_sublist isJsWs).length_le

/-- The hyphenated RRN matcher accepts exactly the strings made of six
digits, a separator, and seven digits. -/
theorem matchRRNHyphen_iff (u : List Char) :
    matchRRNHyphen u = true ↔
      ∃ a b, u = a ++ '-' :: b ∧ a.length = 6 ∧ b.length = 7 ∧
        (∀ c ∈ a, isDigit09 c = true) ∧ (∀ c ∈ b, isDigit09 c = true) := by
  unfold matchRRNHyphen allDigits
  simp only [Bool.and_eq_true, decide_eq_true_eq, List.all_eq_true]
  constructor
  · rintro ⟨⟨⟨h14, hd6⟩, hsep⟩, hd7⟩
    refine ⟨u.take 6, u.drop 7, ?_, ?_, ?_, hd6, hd7⟩
    · have h1 : u = u.take 6 ++ u.drop 6 := (List.take_append_drop 6 u).symm
      have h2 : u.drop 6 = (u.drop 6).take 1 ++ (u.drop 6).drop 1 :=
        (List.take_append_drop 1 (u.drop 6)).symm
      rw [hsep, List.drop_drop] at h2
      conv_lhs => rw [h1, h2]
      simp
    · simp only [List.length_take]
      omega
    · simp only [List.length_drop]
      omega
  · rintro ⟨a, b, rfl, ha6, hb7, hda, hdb⟩
    have hsplit6 : (a ++ '-' :: b).take 6 = a := List.take_left' ha6
    have hdrop6 : (a ++ '-' :: b).drop 6 = '-' :: b := List.drop_left' ha6
    refine ⟨⟨⟨?_, ?_⟩, ?_⟩, ?_⟩
    · simp [List.length_append, ha6, hb7]
    · rw [hsplit6]; exact hda
    · rw [hdrop6]
      rfl
    · have hre : a ++ '-' :: b = (a ++ ['-']) ++ b := by simp
      have hdr : ((a ++ ['-']) ++ b).drop 7 = b :=
        List.drop_left' (by simp [ha6])
      rw [hre, hdr]; exact hdb

/-- looksLikeKoreanRRN accepts exactly the 13-digit value, with or without
one separator after position 6, after trimming. -/
theorem looksLikeKoreanRRN_iff (t : String) :
    looksLikeKoreanRRN t = true ↔
      ((∃ a b, trimWs t.data = a ++ '-' :: b ∧ a.length = 6 ∧ b.length = 7 ∧
          (∀ c ∈ a, isDigit09 c = true) ∧ (∀ c ∈ b, isDigit09 c = true)) ∨
       ((trimWs t.data).length = 13 ∧ ∀ c ∈ trimWs t.data, isDigit09 c = true)) := by
  unfold looksLikeKoreanRRN
  by_cases he : t = ""
  · subst he
    constructor
    · intro h; exact absurd h (by decide)
    · rintro (⟨a, b, hab, ha6, _, _, _⟩ | ⟨h13, _⟩)
      · have h0 : trimWs ("" : String).data = [] := by decide
        rw [h0] at hab
        cases a <;> simp at hab
      · exact absurd h13 (by decide)
  · rw [if_neg he]
    simp only [Bool.or_eq_true, Bool.and_eq_true, decide_eq_true_eq,
      List.all_eq_true]
    rw [matchRRNHyphen_iff]
    constructor
    · rintro (h | ⟨h13, hall⟩)
      · exact Or.inl h
      · exact Or.inr ⟨h13, by simpa [allDigits, List.all_eq_true] using hall⟩
    · rintro (h | ⟨h13, hall⟩)
      · exact Or.inl h
      · exact Or.inr ⟨h13, by simpa [allDigits, List.all_eq_true] using hall⟩

/-! ## Claim theorems -/

/-- C9: parseMrzFull decodes TD3 line 2 at fixed offsets with the
two-digit-year pivot (year > 50 maps to 1900+year, else 2000+year): on the
specimen line2 it yields documentNumber L898902C, nationality UTO,
birthDate 1969-08-06, sex Female and expiryDate 1994-06-23, and the pivot
sends 51 to 1951 and 05 to 2005. -/
theorem C9_parseFull_specimen :
    (parseMrzFull specimenRaw).map (fun i => i.passportNo) = some "L898902C" ∧
    (parseMrzFull specimenRaw).map (fun i => i.nationality) = some "UTO" ∧
    (parseMrzFull specimenRaw).map (fun i => i.birthDate) = some "1969-08-06" ∧
    (parseMrzFull specimenRaw).map (fun i => i.sex) = some "Female" ∧
    (parseMrzFull specimenRaw).map (fun i => i.expiryDate) = some "1994-06-23" ∧
    formatMrzDate "511231" = "1951-12-31" ∧
    formatMrzDate "051231" = "2005-12-31" := by
  decide

/-- C8 counterexample: on a raw capture with two newline-delimited segments
(a 10-character one and a 50-character one), normalizeMrz does NOT take the
first two segments padded/truncated to 44 — the control-character strip
removes the newline first, so the input collapses to one 60-character
segment and the damaged-capture split leaves a 50-character second line,
refuting both the two-segment branch and the exactly-44 invariant. -/
theorem C8_counterexample :
    ((splitNl twoSegmentRaw.data).filter (fun s => s.length > 0)).length = 2 ∧
    (normalizeMrz twoSegmentRaw).map (fun l => l.line2.length) = some 50 := by
  decide

/-- C8 (amended): normalizeMrz strips all control characters — including
every newline — before splitting, so the two-segment branch is dead and
every input is handled as one concatenated segment: cleaned length ≥ 88
splits at 44/88 into two exactly-44 lines; 44 ≤ length < 88 splits at the
first signature match when that match is at a position > 0, right-padding
both sides to at least 44 but never truncating (a line may exceed 44);
otherwise (no match, or a match at position 0) a naive 44-split yields two
exactly-44 lines; cleaned length < 44 fails with none. -/
theorem C8_normalize_behaviour (raw : String) :
    ('\n' ∉ mrzCleaned raw) ∧
    (((splitNl (mrzCleaned raw)).filter (fun s => s.length > 0)).length ≤ 1) ∧
    (88 ≤ (mrzCleaned raw).length →
      normalizeMrz raw =
        some ⟨(mrzCleaned raw).take 44, ((mrzCleaned raw).drop 44).take 44⟩ ∧
      ((mrzCleaned raw).take 44).length = 44 ∧
      (((mrzCleaned raw).drop 44).take 44).length = 44) ∧
    (∀ n, 44 ≤ (mrzCleaned raw).length → (mrzCleaned raw).length < 88 →
      sigSearch (mrzCleaned raw) = some n → 0 < n →
      normalizeMrz raw =
        some ⟨padEndTo 44 '<' ((mrzCleaned raw).take n),
              padEndTo 44 '<' ((mrzCleaned raw).drop n)⟩ ∧
      44 ≤ (padEndTo 44 '<' ((mrzCleaned raw).take n)).length ∧
      44 ≤ (padEndTo 44 '<' ((mrzCleaned raw).drop n)).length) ∧
    (44 ≤ (mrzCleaned raw).length → (mrzCleaned raw).length < 88 →
      (sigSearch (mrzCleaned raw) = none ∨ sigSearch (mrzCleaned raw) = some 0) →
      normalizeMrz raw =
        some ⟨padEndTo 44 '<' ((mrzCleaned raw).take 44),
              padEndTo 44 '<' ((mrzCleaned raw).drop 44)⟩ ∧
      (padEndTo 44 '<' ((mrzCleaned raw).take 44)).length = 44 ∧
      (padEndTo 44 '<' ((mrzCleaned raw).drop 44)).length = 44) ∧
    ((mrzCleaned raw).length < 44 → normalizeMrz raw = none) := by
  have hnl := nl_not_mem_mrzCleaned raw
  refine ⟨hnl, ?_, ?_, ?_, ?_, ?_⟩
  · rw [splitNl_of_no_nl hnl]
    by_cases h0 : (mrzCleaned raw).length > 0 <;> simp [List.filter, h0]
  · intro h88
    rw [normalizeMrz_single_segment, if_pos h88]
    refine ⟨rfl, ?_, ?_⟩
    · rw [List.length_take]; omega
    · rw [List.length_take, List.length_drop]; omega
  · intro n h44 h88 hsig hn
    have he1 : normalizeMrz raw =
        if n > 0 then
          some ⟨padEndTo 44 '<' ((mrzCleaned raw).take n),
                padEndTo 44 '<' ((mrzCleaned raw).drop n)⟩
        else
          some ⟨padEndTo 44 '<' ((mrzCleaned raw).take 44),
                padEndTo 44 '<' ((mrzCleaned raw).drop 44)⟩ := by
      rw [normalizeMrz_single_segment, if_neg (by omega), if_pos h44, hsig]
    rw [he1, if_pos hn]
    refine ⟨rfl, ?_, ?_⟩
    · rw [padEndTo_length]; exact Nat.le_max_right _ _
    · rw [padEndTo_length]; exact Nat.le_max_right _ _
  · intro h44 h88 hsig
    have ht : ((mrzCleaned raw).take 44).length = 44 := by
      rw [List.length_take]; omega
    have hd : ((mrzCleaned raw).drop 44).length ≤ 44 := by
      rw [List.length_drop]; omega
    have hlen1 : (padEndTo 44 '<' ((mrzCleaned raw).take 44)).length = 44 := by
      rw [padEndTo_length, ht]
      exact Nat.max_self 44
    have hlen2 : (padEndTo 44 '<' ((mrzCleaned raw).drop 44)).length = 44 := by
      rw [padEndTo_length]
      exact Nat.max_eq_right hd
    rcases hsig with h | h
    · rw [normalizeMrz_single_segment, if_neg (by omega), if_pos h44, h]
      exact ⟨rfl, hlen1, hlen2⟩
    · have he1 : normalizeMrz raw =
          if 0 > 0 then
            some ⟨padEndTo 44 '<' ((mrzCleaned raw).take 0),
                  padEndTo 44 '<' ((mrzCleaned raw).drop 0)⟩
          else
            some ⟨padEndTo 44 '<' ((mrzCleaned raw).take 44),
                  padEndTo 44 '<' ((mrzCleaned raw).drop 44)⟩ := by
        rw [normalizeMrz_single_segment, if_neg (by omega), if_pos h44, h]
      rw [he1, if_neg (by omega)]
      exact ⟨rfl, hlen1, hlen2⟩
  · intro hlt
    rw [normalizeMrz_single_segment, if_neg (by omega), if_neg (by omega)]

/-- C8 witness: the amended behaviour evaluated on the two-segment capture:
its cleaned text has length 60 with the signature at position 10, so the
result is the untruncated split at 10. -/
theorem C8_normalize_behaviour_witness :
    normalizeMrz twoSegmentRaw =
      some ⟨padEndTo 44 '<' ((mrzCleaned twoSegmentRaw).take 10),
            padEndTo 44 '<' ((mrzCleaned twoSegmentRaw).drop 10)⟩ := by
  exact ((C8_normalize_behaviour twoSegmentRaw).2.2.2.1 10 (by decide)
    (by decide) (by decide) (by decide)).1

/-- C10 counterexample: an ID-card OCR result with a 7-digit national id
and a 2-character name is rejected — the claimed name-length fallback does
not exist, so the validator does not accept "exactly when" the claim says. -/
theorem C10_counterexample :
    looksLikeKoreanRRN sevenDigitIdCard.idNo = false ∧
    sevenDigitIdCard.name.data.length ≥ 2 ∧
    classifyCard none (some sevenDigitIdCard) none = none := by
  decide

/-- C10 (amended): the ID_CARD acceptance test is looksLikeKoreanRRN on the
idNo field alone — exactly the 13-digit value with or without one separator
after position 6 (after trimming) — with no name fallback: the decision is
unchanged under any change of the other fields, it accepts
"123456-1234567", and it rejects every 7-character value. -/
theorem C10_idcard_validator (license : Option OcrLicense)
    (alien : Option OcrAlien) (card other : OcrIdCard) (s t : String)
    (hlen : s.data.length = 7) (hid : card.idNo = other.idNo) :
    looksLikeKoreanRRN "123456-1234567" = true ∧
    looksLikeKoreanRRN s = false ∧
    classifyCard license (some card) alien =
      classifyCard license (some other) alien ∧
    (classifyCard license (some card) alien = some CardKind.idCard ↔
      looksLikeKoreanRRN card.idNo = true) ∧
    (looksLikeKoreanRRN t = true ↔
      ((∃ a b, trimWs t.data = a ++ '-' :: b ∧ a.length = 6 ∧ b.length = 7 ∧
          (∀ c ∈ a, isDigit09 c = true) ∧ (∀ c ∈ b, isDigit09 c = true)) ∨
       ((trimWs t.data).length = 13 ∧
          ∀ c ∈ trimWs t.data, isDigit09 c = true))) := by
  refine ⟨by decide, ?_, ?_, ?_, looksLikeKoreanRRN_iff t⟩
  · unfold looksLikeKoreanRRN
    by_cases he : s = ""
    · subst he; simp at hlen
    · rw [if_neg he]
      have hle : (trimWs s.data).length ≤ 7 := hlen ▸ trimWs_length_le s.data
      have h1 : matchRRNHyphen (trimWs s.data) = false := by
        cases hb : matchRRNHyphen (trimWs s.data)
        · rfl
        · exfalso
          obtain ⟨a, b, hab, ha6, hb7, _, _⟩ := (matchRRNHyphen_iff _).mp hb
          replace hab := congrArg List.length hab
          simp only [List.length_append, List.length_cons] at hab
          omega
      have h13 : ¬((trimWs s.data).length = 13) := by omega
      simp [h1, h13]
  · simp only [classifyCard, idCardIdNo, hid]
  · simp only [classifyCard, idCardIdNo]
    by_cases hr : looksLikeKoreanRRN card.idNo = true
    · simp [hr]
    · have hr' : looksLikeKoreanRRN card.idNo = false := by
        cases hb : looksLikeKoreanRRN card.idNo
        · rfl
        · exact absurd hb hr
      rw [if_neg (by simp [hr'])]
      constructor
      · intro hcc
        split_ifs at hcc <;> simp at hcc
      · intro hcc
        exact absurd hcc (by simp [hr'])

/-- C10 witness: the amended validator facts evaluated on the 7-digit
sample and on two ID-card results sharing the idNo. -/
theorem C10_idcard_validator_witness :
    looksLikeKoreanRRN "123456-1234567" = true ∧
    looksLikeKoreanRRN "1234568" = false ∧
    classifyCard none (some sevenDigitIdCard) none =
      classifyCard none (some sevenDigitIdCardAlt) none := by
  have h := C10_idcard_validator none none sevenDigitIdCard sevenDigitIdCardAlt
    "1234568" "x" (by decide) (by decide)
  exact ⟨h.1, h.2.1, h.2.2.1⟩

/-- C1: at most one scan attempt is ever in flight.  A timer tick is a
no-op while an attempt is running or inside the post-failure backoff
window, a manual trigger is a no-op while an attempt is running, and along
every interleaving of events from a non-busy state the number of attempt
starts never exceeds the number of completions plus one (the busy flag is
written only by the step function of the model). -/
theorem C1_single_attempt_invariant :
    (∀ (s : OState) (now : Nat), s.isScanning = true →
      step s (.tick now) = (s, [])) ∧
    (∀ (s : OState) (now : Nat), now - s.lastFailedAt < FAIL_BACKOFF_MS →
      step s (.tick now) = (s, [])) ∧
    (∀ s : OState, s.isScanning = true → step s .manualScan = (s, [])) ∧
    (∀ (s : OState) (evs : List Ev), s.isScanning = false →
      countAct .startAttempt (runEvents s evs).2 ≤
        countAct .endAttempt (runEvents s evs).2 + 1) := by
  refine ⟨?_, ?_, ?_, ?_⟩
  · intro s now h
    simp [step, h]
  · intro s now h
    simp [step, h]
  · intro s h
    simp [step, h]
  · intro s evs h
    have hbal := runEvents_flight_balance s evs
    rw [h] at hbal
    have hle : ((runEvents s evs).1.isScanning).toNat ≤ 1 := by
      cases (runEvents s evs).1.isScanning <;> simp
    simp only [Bool.toNat_false, Nat.add_zero] at hbal
    omega

/-- C1 witness: the no-op and bounded-start facts evaluated at concrete
states and a concrete interleaving of one tick and one mid-flight manual
trigger. -/
theorem C1_single_attempt_invariant_witness :
    step busyState (.tick 12000) = (busyState, []) ∧
    step busyState .manualScan = (busyState, []) ∧
    step idleState (.tick 100) = (idleState, []) ∧
    countAct .startAttempt
        (runEvents idleState [.tick 9000, .manualScan, .attemptEnd .recognizedDone 9900]).2 ≤
      countAct .endAttempt
        (runEvents idleState [.tick 9000, .manualScan, .attemptEnd .recognizedDone 9900]).2 + 1 := by
  exact ⟨C1_single_attempt_invariant.1 busyState 12000 rfl,
    C1_single_attempt_invariant.2.2.1 busyState rfl,
    C1_single_attempt_invariant.2.1 idleState 100 (by decide),
    C1_single_attempt_invariant.2.2.2 idleState
      [.tick 9000, .manualScan, .attemptEnd .recognizedDone 9900] rfl⟩

/-- C2 counterexample: a card scan whose detected document type is UNKNOWN
and whose OCR reads never validate still invokes the OCR getters, and no
state-reset call is ever issued — refuting "no OCR getter is invoked" and
"a state-reset call is issued". -/
theorem C2_counterexample :
    unknownCardEnv.docTypeName = "UNKNOWN" ∧
    CallSite.readIDCard ∈ (performScan unknownCardEnv).calls ∧
    CallSite.readDriverLicense ∈ (performScan unknownCardEnv).calls ∧
    CallSite.readAlienCard ∈ (performScan unknownCardEnv).calls ∧
    CallSite.resetState ∉ (performScan unknownCardEnv).calls := by
  decide

/-- C2 (amended): for a card-type scan the OCR getters are invoked
regardless of the detected document type (there is no UNKNOWN gate and no
state-reset call); when no OCR round validates, the staged images are
deleted, the attempt fails with backoff, and nothing is persisted or
notified. -/
theorem C2_card_ocr_always_called (env : ScanEnv)
    (hs : env.scanSuccess = true) (hty : env.scanType = .card)
    (hrej : ∀ i, i < 10 →
      classifyCard (env.licenseReads i) (env.idCardReads i)
        (env.alienReads i) = none) :
    CallSite.readIDCard ∈ (performScan env).calls ∧
    CallSite.resetState ∉ (performScan env).calls ∧
    (performScan env).backoffSet = true ∧
    (performScan env).bmpDeleted = env.bmpExists ∧
    (performScan env).irDeleted = env.irExists ∧
    (performScan env).imagesRenamed = 0 ∧
    (performScan env).txtWritten = false ∧
    (performScan env).jsonWritten = false ∧
    (performScan env).notified = false := by
  have hrec : recognizedOf env = false := by
    cases hb : recognizedOf env
    · rfl
    · exfalso
      obtain ⟨i, hi, hne⟩ := (recognizedOf_card hty).mp hb
      exact hne (hrej i hi)
  have hmem : CallSite.readIDCard ∈ (performScan env).calls := by
    rw [performScan_calls hs, cardPartOf_eq_loop hty]
    simp only [List.mem_cons, List.mem_append]
    exact Or.inr (Or.inr (Or.inr (cardLoop_readIDCard_mem env 0 10 (by omega))))
  have hnores : CallSite.resetState ∉ (performScan env).calls := by
    intro hmem2
    rcases call_mem_performScan hmem2 with h | h | h | h | h | h <;>
      exact absurd h (by decide)
  exact ⟨hmem, hnores, performScan_unrecognized hs hrec⟩

/-- C2 witness: the amended facts evaluated on the UNKNOWN-type card scan
with empty OCR reads. -/
theorem C2_card_ocr_always_called_witness :
    CallSite.readIDCard ∈ (performScan unknownCardEnv).calls ∧
    (performScan unknownCardEnv).backoffSet = true ∧
    (performScan unknownCardEnv).bmpDeleted = unknownCardEnv.bmpExists := by
  have h := C2_card_ocr_always_called unknownCardEnv rfl rfl
    (fun i _ => rfl)
  exact ⟨h.1, h.2.2.1, h.2.2.2.1⟩

/-- C3: for an attempt whose scan call succeeded, the attempt is recognized
iff a structurally valid MRZ text (necessarily of length > 10) was read on
the passport path, or a card OCR round passed the field validators; every
unrecognized attempt deletes the staged image artifacts (when present),
sets the 2.5-second backoff, and persists and notifies nothing: no image
rename, no text or JSON file, no result event. -/
theorem C3_recognition_criterion (env : ScanEnv) (hs : env.scanSuccess = true) :
    ((performScan env).recognized = true ↔
      ((env.scanType = .passport ∧
          ∃ i, i < 10 ∧ isValidPassportMRZ (env.mrzReads i) = true ∧
            10 < (env.mrzReads i).data.length) ∨
       (env.scanType = .card ∧
          ∃ i, i < 10 ∧
            classifyCard (env.licenseReads i) (env.idCardReads i)
              (env.alienReads i) ≠ none))) ∧
    ((performScan env).recognized = false →
      (performScan env).backoffSet = true ∧
      (performScan env).bmpDeleted = env.bmpExists ∧
      (performScan env).irDeleted = env.irExists ∧
      (performScan env).imagesRenamed = 0 ∧
      (performScan env).txtWritten = false ∧
      (performScan env).jsonWritten = false ∧
      (performScan env).notified = false) ∧
    FAIL_BACKOFF_MS = 2500 := by
  refine ⟨?_, ?_, rfl⟩
  · rw [performScan_recognized hs]
    cases hty : env.scanType with
    | passport =>
      rw [recognizedOf_passport hty]
      constructor
      · rintro ⟨i, hi, hv⟩
        exact Or.inl ⟨rfl, i, hi, hv, isValidPassportMRZ_length hv⟩
      · rintro (⟨_, i, hi, hv, _⟩ | ⟨hc, _⟩)
        · exact ⟨i, hi, hv⟩
        · exact absurd hc (by decide)
    | card =>
      rw [recognizedOf_card hty]
      constructor
      · intro hex
        exact Or.inr ⟨rfl, hex⟩
      · rintro (⟨hc, _⟩ | ⟨_, hex⟩)
        · exact absurd hc (by decide)
        · exact hex
    | noDoc =>
      rw [recognizedOf_noDoc hty]
      constructor
      · intro h; exact absurd h (by decide)
      · rintro (⟨hc, _⟩ | ⟨hc, _⟩) <;> exact absurd hc (by decide)
  · intro hrec
    rw [performScan_recognized hs] at hrec
    exact performScan_unrecognized hs hrec

/-- C3 witness: the criterion evaluated on a passport scan delivering the
specimen MRZ (recognized) and on a passport scan with empty MRZ reads
(unrecognized, with cleanup and backoff). -/
theorem C3_recognition_criterion_witness :
    (performScan specimenPassportEnv).recognized = true ∧
    (performScan emptyPassportEnv).backoffSet = true ∧
    (performScan emptyPassportEnv).notified = false ∧
    FAIL_BACKOFF_MS = 2500 := by
  have h1 := C3_recognition_criterion specimenPassportEnv rfl
  have h2 := C3_recognition_criterion emptyPassportEnv rfl
  have hr2 : (performScan emptyPassportEnv).recognized = false := by decide
  refine ⟨h1.1.mpr (Or.inl ⟨rfl, 0, by omega, by decide, by decide⟩),
    (h2.2.1 hr2).1, (h2.2.1 hr2).2.2.2.2.2.2, h1.2.2⟩

/-- C4 counterexample: with an attempt in flight, two manual triggers
followed by the attempt's completion start zero further attempts — there
is no pending flag and nothing is serviced after completion, refuting
"exactly one queued extra attempt". -/
theorem C4_counterexample :
    countAct .startAttempt
      (runEvents busyState
        [.manualScan, .manualScan, .attemptEnd .noDocument 5000]).2 = 0 ∧
    (runEvents busyState
      [.manualScan, .manualScan, .attemptEnd .noDocument 5000]).1.isScanning
        = false := by
  decide

/-- C4 (amended): a manual scan request arriving while an attempt is in
flight is dropped — performScan returns immediately under the busy flag,
no pending flag exists — so two manual triggers issued mid-flight start
zero extra attempts and nothing is serviced when the in-flight attempt
completes. -/
theorem C4_manual_midflight_dropped (s : OState) (o : AttemptOutcome)
    (now : Nat) (h : s.isScanning = true) :
    step s .manualScan = (s, []) ∧
    countAct .startAttempt
      (runEvents s [.manualScan, .manualScan, .attemptEnd o now]).2 = 0 ∧
    (runEvents s [.manualScan, .manualScan, .attemptEnd o now]).1.isScanning
      = false := by
  have hstep : step s .manualScan = (s, []) := by
    simp [step, h]
  refine ⟨hstep, ?_, ?_⟩
  · have hacts :
        (runEvents s [.manualScan, .manualScan, .attemptEnd o now]).2 =
          [Act.endAttempt] := by
      cases o <;> simp [runEvents, hstep, step, h]
    rw [hacts]
    decide
  · cases o <;> simp [runEvents, hstep, step, h]

/-- C4 witness: the amended behaviour evaluated at the concrete busy state
for a no-document completion. -/
theorem C4_manual_midflight_dropped_witness :
    step busyState .manualScan = (busyState, []) ∧
    countAct .startAttempt
      (runEvents busyState
        [.manualScan, .manualScan, .attemptEnd .recognizedDone 7000]).2 = 0 := by
  have h := C4_manual_midflight_dropped busyState .recognizedDone 7000 rfl
  exact ⟨h.1, h.2.1⟩

/-- C5 counterexample: three consecutive timeout-failing attempts with no
intervening success leave the automatic loop running and emit zero
advisory status events — refuting "the automatic loop is stopped and
exactly one advisory status event is emitted". -/
theorem C5_counterexample :
    countAct .startAttempt (runEvents idleState threeTimeoutEvents).2 = 3 ∧
    (runEvents idleState threeTimeoutEvents).1.loopRunning = true ∧
    countAct .advisoryStatus (runEvents idleState threeTimeoutEvents).2 = 0 := by
  decide

/-- C5 (amended): no consecutive-timeout counter exists.  An attempt ending
in a timeout error merely clears the busy flag and leaves the backoff
timestamp untouched; no event ever emits an advisory status or an
automatic reconnect, and the loop stops only through an explicit stop
request — so any number of consecutive timeouts leaves the loop running. -/
theorem C5_no_timeout_escalation (s : OState) (e : Ev) (now : Nat)
    (h : s.isScanning = true) :
    Act.advisoryStatus ∉ (step s e).2 ∧
    Act.autoReconnect ∉ (step s e).2 ∧
    ((step s e).1.loopRunning = false → s.loopRunning = false ∨ e = .stopLoopReq) ∧
    (step s (.attemptEnd .errorTimeout now)).1.lastFailedAt = s.lastFailedAt ∧
    (step s (.attemptEnd .errorTimeout now)).1.isScanning = false := by
  refine ⟨?_, ?_, step_loop_stops_only_on_request, ?_, ?_⟩
  · intro hmem
    rcases step_acts hmem with h1 | h1 <;> exact absurd h1 (by decide)
  · intro hmem
    rcases step_acts hmem with h1 | h1 <;> exact absurd h1 (by decide)
  · simp only [step]
    split
    · rfl
    · rfl
  · simp only [step]
    rw [if_pos h]

/-- C5 witness: the amended facts evaluated at the concrete busy state and
a timeout completion event. -/
theorem C5_no_timeout_escalation_witness :
    Act.advisoryStatus ∉ (step busyState (.attemptEnd .errorTimeout 9000)).2 ∧
    (step busyState (.attemptEnd .errorTimeout 9000)).1.isScanning = false := by
  have h := C5_no_timeout_escalation busyState (.attemptEnd .errorTimeout 9000)
    9000 rfl
  exact ⟨h.1, h.2.2.2.2⟩

/-- C6 counterexample: two reconnect requests issued back to back — hence
within 3 seconds of each other — each execute the recovery sequence, so
the device-close step runs twice, refuting "exactly once". -/
theorem C6_counterexample :
    countRAct .closeDev ((reconnectHandler quickReconnEnv).1 ++
      (reconnectHandler quickReconnEnv).1) = 2 := by
  decide

/-- C6 (amended): reconnect requests are never rate limited.  Every request
runs close, a 250ms pause, then a quick reopen; only when the quick reopen
fails does it destroy and recreate the worker, re-init and reopen; the scan
loop is neither stopped nor resumed; and two requests — whatever their
spacing — execute the sequence twice. -/
theorem C6_reconnect_not_rate_limited (env env2 : ReconnEnv) :
    (reconnectHandler env).1.take 3 = [.closeDev, .pause250, .openDev] ∧
    RAct.stopLoop ∉ (reconnectHandler env).1 ∧
    RAct.resumeLoop ∉ (reconnectHandler env).1 ∧
    (env.quickOpenOk = true →
      reconnectHandler env = ([.closeDev, .pause250, .openDev], true)) ∧
    (env.quickOpenOk = false →
      RAct.destroyWorker ∈ (reconnectHandler env).1 ∧
      RAct.createWorker ∈ (reconnectHandler env).1 ∧
      RAct.initWorker ∈ (reconnectHandler env).1) ∧
    countRAct .closeDev ((reconnectHandler env).1 ++
      (reconnectHandler env2).1) = 2 := by
  obtain ⟨q, i, r⟩ := env
  obtain ⟨q2, i2, r2⟩ := env2
  cases q <;> cases i <;> cases r <;> cases q2 <;> cases i2 <;> cases r2 <;>
    decide

/-- C6 witness: the amended facts evaluated on a failing quick reopen and
a successful one. -/
theorem C6_reconnect_not_rate_limited_witness :
    RAct.destroyWorker ∈ (reconnectHandler ⟨false, true, true⟩).1 ∧
    reconnectHandler quickReconnEnv =
      ([.closeDev, .pause250, .openDev], true) ∧
    countRAct .closeDev ((reconnectHandler ⟨false, true, true⟩).1 ++
      (reconnectHandler quickReconnEnv).1) = 2 := by
  have h := C6_reconnect_not_rate_limited ⟨false, true, true⟩ quickReconnEnv
  have h2 := C6_reconnect_not_rate_limited quickReconnEnv ⟨false, true, true⟩
  exact ⟨(h.2.2.2.2.1 rfl).1, h2.2.2.2.1 rfl, h.2.2.2.2.2⟩

/-- C7 counterexample: the full-scan call and the MRZ getter are issued
inside an attempt with no deadline at all (no withTimeout wrapping), so
not every device-boundary call within an attempt carries an explicit
deadline, and the claimed 12s / 1.5s classes do not exist. -/
theorem C7_counterexample :
    deadlineMs CallSite.scanAuto = none ∧
    CallSite.scanAuto ∈ (performScan emptyPassportEnv).calls ∧
    deadlineMs CallSite.readMRZ = none ∧
    CallSite.readMRZ ∈ (performScan emptyPassportEnv).calls := by
  decide

/-- C7 (amended): only the open (3s), close (2s), worker-destroy (1.5s) and
worker-init (3s) boundary calls are wrapped with explicit withTimeout
deadlines; every device call issued inside a scan attempt — the scan call,
the document-type query, the MRZ read and the three OCR getters — carries
no deadline. -/
theorem C7_deadline_table (env : ScanEnv) :
    deadlineMs CallSite.openDev = some 3000 ∧
    deadlineMs CallSite.closeDev = some 2000 ∧
    deadlineMs CallSite.destroyWorker = some 1500 ∧
    deadlineMs CallSite.initWorker = some 3000 ∧
    (∀ c ∈ (performScan env).calls, deadlineMs c = none) := by
  refine ⟨rfl, rfl, rfl, rfl, ?_⟩
  intro c hc
  rcases call_mem_performScan hc with h | h | h | h | h | h <;> subst h <;> rfl

/-- C7 witness: the deadline table evaluated on the card-scan environment
and one of its attempt-interior calls. -/
theorem C7_deadline_table_witness :
    deadlineMs CallSite.openDev = some 3000 ∧
    deadlineMs CallSite.readIDCard = none := by
  have h := C7_deadline_table unknownCardEnv
  exact ⟨h.1, h.2.2.2.2 CallSite.readIDCard (by decide)⟩

end ScannerApp
